import Mathlib

/-!
Shallow embedding of the DCP (Database Change Protocol) subsystem of the
kv_engine repository: the connection registry (DcpConnMap), the producer
connection (control options, closeStream, step), and the consumer-side
passive stream (snapshot markers, mutation ingestion, buffering under
replication throttling, seqno acknowledgements, message-size accounting).

The repository excerpt contains the DCP unit tests; the implementation
bodies of DcpConnMap / DcpProducer / DcpConsumer / PassiveStream are not
part of the excerpt, so each operation below is modelled from the
specification's description of that operation, with its observable
behaviour pinned by the assertions of the unit tests in the excerpt
(engines/ep/tests .. dcp_test, found in the source file
src/engines/ep/src/bucket_logger.cc of the excerpt).
-/

namespace KvDcp

/-- Engine status codes (the subset of ENGINE_ERROR_CODE the DCP layer
returns: ENGINE_SUCCESS, ENGINE_EWOULDBLOCK, ENGINE_EINVAL,
ENGINE_TMPFAIL, ENGINE_DISCONNECT). -/
inductive EngineErr where
  | success
  | ewouldblock
  | einval
  | tmpfail
  | disconnect
  deriving DecidableEq, Repr

/-- The byte at position `i` (little-endian order) of a 64-bit value. -/
def byteAt (x i : Nat) : Nat := x / 256 ^ i % 256

/-- `htonll`: host-to-network (big-endian) conversion of a 64-bit value,
modelled as the byte-reversal of its eight bytes.  Seqnos carried by a
SeqnoAcknowledgement are stored in network byte order. -/
def htonll (x : Nat) : Nat :=
  byteAt x 0 * 256 ^ 7 + byteAt x 1 * 256 ^ 6 + byteAt x 2 * 256 ^ 5 +
  byteAt x 3 * 256 ^ 4 + byteAt x 4 * 256 ^ 3 + byteAt x 5 * 256 ^ 2 +
  byteAt x 6 * 256 ^ 1 + byteAt x 7

/-! ### Connection registry (DcpConnMap)

Modelled from the spec: the implementation of `DcpConnMap` is not in the
excerpt.  Contracts from spec section 4.1: a name collision supersedes the
older connection (it is marked disconnect-requested, the newcomer is
returned); a cookie collision marks the older connection
disconnect-requested and rejects the newcomer (returns null);
`disconnect(cookie)` marks the connection and moves it to the dead list;
`findByName` never returns a connection marked disconnect-requested;
`manageConnections` reaps the dead list.  Names and cookies are opaque
identifiers, modelled as `Nat`. -/

/-- A DCP connection as held by the registry: its unique name, the
transport cookie, and the disconnect-requested flag. -/
structure Conn where
  name : Nat
  cookie : Nat
  disconnectRequested : Bool
  deriving DecidableEq, Repr

/-- The connection registry: the live connection list and the
dead-connection (reap) list. -/
structure ConnMapM where
  conns : List Conn
  dead : List Conn
  deriving DecidableEq, Repr

namespace ConnMapM

/-- Mark every connection with the given name as disconnect-requested
(name collision: the prior holder of the name is superseded). -/
def markByName (name : Nat) (l : List Conn) : List Conn :=
  l.map fun c =>
    if c.name == name then { c with disconnectRequested := true } else c

/-- Mark every connection with the given cookie as disconnect-requested. -/
def markByCookie (cookie : Nat) (l : List Conn) : List Conn :=
  l.map fun c =>
    if c.cookie == cookie then { c with disconnectRequested := true } else c

/-- Modelled from the spec: `DcpConnMap::newProducer` (and `newConsumer`,
which shares the collision handling).  A cookie collision marks the
existing connection disconnect-requested and rejects the newcomer
(returns `none`); a name collision marks the existing connection
disconnect-requested and the new connection is created and returned. -/
def newProducer (m : ConnMapM) (cookie name : Nat) : ConnMapM × Option Conn :=
  if m.conns.any (fun c => c.cookie == cookie) then
    ({ m with conns := markByCookie cookie m.conns }, none)
  else
    let newConn : Conn :=
      { name := name, cookie := cookie, disconnectRequested := false }
    ({ m with conns := markByName name m.conns ++ [newConn] }, some newConn)

/-- Modelled from the spec: `DcpConnMap::findByName` walks the connection
list and skips any connection that wants to disconnect. -/
def findByName (m : ConnMapM) (name : Nat) : Option Conn :=
  m.conns.find? fun c => c.name == name && !c.disconnectRequested

/-- Modelled from the spec: `DcpConnMap::disconnect(cookie)` marks the
connection disconnect-requested and appends it to the dead list (it stays
in the registry until `manageConnections` reaps it). -/
def disconnect (m : ConnMapM) (cookie : Nat) : ConnMapM :=
  { conns := markByCookie cookie m.conns
    dead := m.dead ++
      (m.conns.filter (fun c => c.cookie == cookie)).map
        (fun c => { c with disconnectRequested := true }) }

/-- Modelled from the spec: the dead-connection count read by the tests. -/
def getNumberOfDeadConnections (m : ConnMapM) : Nat := m.dead.length

/-- Modelled from the spec: `DcpConnMap::manageConnections` tears down the
connections on the dead list and clears it. -/
def manageConnections (m : ConnMapM) : ConnMapM :=
  { conns := m.conns.filter (fun c => !c.disconnectRequested), dead := [] }

end ConnMapM

/-! ### Producer control: set_noop_interval

Modelled from the spec: `DcpProducer::control` handling of the
`set_noop_interval` key is not in the excerpt.  Its acceptance condition
is pinned by the test `ConnectionTest::test_mb19955`: with a
connection-manager interval of 2 seconds, requesting a noop interval of 1
yields ENGINE_EINVAL ("1" is not a multiple of "2"), i.e. the requested
noop interval is accepted iff it is a multiple of the connection-manager
interval (the producer snoozes for the connection-manager interval
between noop checks, so a shorter noop interval could not be adhered
to). -/

/-- `control("set_noop_interval", v)` on a producer whose engine has the
given connection-manager interval: accepted iff the requested interval is
a multiple of the connection-manager interval. -/
def setNoopIntervalControl (connectionManagerInterval v : Nat) : EngineErr :=
  if v % connectionManagerInterval == 0 then .success else .einval

/-- Modelled from the spec: the spec instead words the rule as
"`set_noop_interval` must divide the connection-manager interval — reject
otherwise".  This definition follows the spec's words, for comparison
with `setNoopIntervalControl` (which follows the test's assertions). -/
def setNoopIntervalControlSpecWorded
    (connectionManagerInterval v : Nat) : EngineErr :=
  if connectionManagerInterval % v == 0 then .success else .einval

/-! ### Consumer-side: vBucket, passive stream, message ingestion

Modelled from the spec: the implementations of `PassiveStream`,
`DcpConsumer`, `VBucket` and `CheckpointManager` are not in the excerpt.
The model follows spec sections 4.3 (message ingestion, message-size
accounting, seqno acknowledgements), 4.4 (buffered-processor discipline)
and 4.6 (checkpoint interaction), with observable behaviour pinned by the
tests MB31410, Durability_MemorySeqnoAckAtSyncWriteReceived,
Durability_ReplicaDiskAckAtPersistedSeqno, test_mb21784,
test_not_using_backfill_queue, test_mb24424_deleteResponse and
test_mb24424_mutationResponse in the excerpt. -/

/-- An incoming mutation/deletion message on a consumer connection:
by-seqno, whether it carries a durability requirement (a SyncWrite
prepare), whether it is a deletion, and the sizes of its key, value and
extended-metadata sections. -/
structure Msg where
  seqno : Nat
  durable : Bool
  deletion : Bool
  keySize : Nat
  valueSize : Nat
  extMetaSize : Nat
  deriving DecidableEq, Repr

/-- Memcached binary protocol header size in bytes. -/
def headerBytes : Nat := 24

/-- DcpMutation extras size in bytes (by_seqno, rev_seqno, flags,
expiration, lock_time, nmeta, nru). -/
def mutationExtrasBytes : Nat := 31

/-- DcpDeletion extras size in bytes (by_seqno, rev_seqno, nmeta). -/
def deletionExtrasBytes : Nat := 18

/-- `MutationResponse::mutationBaseMsgBytes`: fixed overhead of a
mutation response (header plus mutation extras). -/
def mutationBaseMsgBytes : Nat := headerBytes + mutationExtrasBytes

/-- `MutationResponse::deletionBaseMsgBytes`: fixed overhead of a
deletion response (header plus deletion extras). -/
def deletionBaseMsgBytes : Nat := headerBytes + deletionExtrasBytes

/-- Modelled from the spec: `MutationResponse::getMessageSize` — a
deletion response occupies `deletionBaseMsgBytes + key_size +
ext_meta_size` bytes, a mutation response `mutationBaseMsgBytes +
key_size + value_size + ext_meta_size` bytes. -/
def Msg.messageSize (m : Msg) : Nat :=
  if m.deletion then deletionBaseMsgBytes + m.keySize + m.extMetaSize
  else mutationBaseMsgBytes + m.keySize + m.valueSize + m.extMetaSize

/-- A response sitting in the passive stream's ready queue.  `seqnoAck`
carries the two 64-bit seqno fields as stored (network byte order);
`streamReq` is the initial stream-request emitted when the stream is
created. -/
inductive PassiveResp where
  | streamReq
  | seqnoAck (inMemorySeqno onDiskSeqno : Nat)
  deriving DecidableEq, Repr

/-- The seqno-ack fields as read back by the tests. -/
def PassiveResp.getInMemorySeqno : PassiveResp → Nat
  | .seqnoAck m _ => m
  | .streamReq => 0

/-- The on-disk seqno-ack field as read back by the tests. -/
def PassiveResp.getOnDiskSeqno : PassiveResp → Nat
  | .seqnoAck _ d => d
  | .streamReq => 0

/-- The replica vBucket state the consumer applies messages to: the
ordered seqnos of the items queued into the checkpoint manager, the
highest persisted seqno, the open-checkpoint id, the backfill-phase flag
and the receiving-initial-disk-snapshot flag. -/
structure VBucketM where
  appliedSeqnos : List Nat
  persistedSeqno : Nat
  openCheckpointId : Nat
  backfillPhase : Bool
  receivingInitialDiskSnapshot : Bool
  deriving DecidableEq, Repr

/-- The vBucket's high seqno: the last seqno applied (0 if none). -/
def VBucketM.highSeqno (vb : VBucketM) : Nat :=
  vb.appliedSeqnos.getLastD 0

/-- The consumer's passive stream: the deferred-processing buffer, the
ready queue, the current snapshot window, whether the connection
negotiated sync replication and the last recorded response message
size. -/
structure PassiveStreamM where
  buffer : List Msg
  readyQ : List PassiveResp
  snapStart : Nat
  snapEnd : Nat
  syncReplication : Bool
  responseMessageSize : Nat
  deriving DecidableEq, Repr

/-- Snapshot-marker flags (MARKER_FLAG_MEMORY = 0x1, MARKER_FLAG_DISK =
0x2). -/
structure MarkerFlags where
  memory : Bool
  disk : Bool
  deriving DecidableEq, Repr

/-- Modelled from the spec: `PassiveStream::processMarker`.  A marker
with the disk flag received by a replica with no data marks the vBucket
as receiving an initial disk snapshot; if the `disk_backfill_queue`
configuration is active the vBucket additionally enters the backfill
phase, which sets the open-checkpoint id to 0.  Any later marker received
while the vBucket is in the backfill phase leaves the backfill phase and
creates a new checkpoint (advancing the open-checkpoint id); outside the
backfill phase a marker only updates the stream's snapshot window. -/
def processMarker (diskBackfillQueue : Bool) (vb : VBucketM)
    (s : PassiveStreamM) (snapStart snapEnd : Nat) (flags : MarkerFlags) :
    VBucketM × PassiveStreamM :=
  let s' := { s with snapStart := snapStart, snapEnd := snapEnd }
  if flags.disk && vb.highSeqno == 0 then
    if diskBackfillQueue then
      ({ vb with backfillPhase := true, openCheckpointId := 0,
                 receivingInitialDiskSnapshot := true }, s')
    else
      ({ vb with receivingInitialDiskSnapshot := true }, s')
  else
    if vb.backfillPhase then
      ({ vb with backfillPhase := false,
                 openCheckpointId := vb.openCheckpointId + 1 }, s')
    else (vb, s')

/-- Modelled from the spec: applying one message to the vBucket (the
success path of ingestion).  The item is queued into the checkpoint
manager, the response message size is recorded; receiving the
snapshot-end mutation clears the receiving-initial-disk-snapshot flag;
receiving a durable write (prepare) pushes a SeqnoAck with
`inMemorySeqno = prepareSeqno` (network byte order) and
`onDiskSeqno = 0` onto the ready queue. -/
def applyMessage (vb : VBucketM) (s : PassiveStreamM) (m : Msg) :
    VBucketM × PassiveStreamM :=
  let vb' := { vb with
    appliedSeqnos := vb.appliedSeqnos ++ [m.seqno]
    receivingInitialDiskSnapshot :=
      if m.seqno == s.snapEnd then false
      else vb.receivingInitialDiskSnapshot }
  let s' := { s with
    responseMessageSize := m.messageSize
    readyQ :=
      if m.durable then s.readyQ ++ [.seqnoAck (htonll m.seqno) 0]
      else s.readyQ }
  (vb', s')

/-- Modelled from the spec: `PassiveStream::messageReceived`.  The
message is processed immediately only when no earlier message is waiting
in the buffer and the replication throttle allows processing; otherwise
it is appended to the buffer for deferred processing and the caller gets
ENGINE_TMPFAIL. -/
def messageReceived (memoryPressure : Bool) (vb : VBucketM)
    (s : PassiveStreamM) (m : Msg) : VBucketM × PassiveStreamM × EngineErr :=
  if s.buffer.isEmpty && !memoryPressure then
    let (vb', s') := applyMessage vb s m
    (vb', s', .success)
  else
    (vb, { s with buffer := s.buffer ++ [m] }, .tmpfail)

/-- Modelled from the spec: `PassiveStream::processBufferedMessages` (the
DcpConsumerTask drain path) with a batch size: messages are taken from
the front of the buffer and applied in the order they were buffered. -/
def processBufferedMessages (vb : VBucketM) (s : PassiveStreamM)
    (batchSize : Nat) : VBucketM × PassiveStreamM :=
  match batchSize with
  | 0 => (vb, s)
  | batch + 1 =>
    match s.buffer with
    | [] => (vb, s)
    | m :: rest =>
      processBufferedMessages
        (applyMessage vb { s with buffer := rest } m).1
        (applyMessage vb { s with buffer := rest } m).2 batch

/-- Modelled from the spec: persistence of a flush batch
(`EPBucket::flushVBucket`).  Everything queued is persisted; when the
connection negotiated sync replication and the batch was non-empty, a
SeqnoAck carrying the highest persisted seqno in both fields (network
byte order) is pushed onto the ready queue. -/
def flushVBucket (vb : VBucketM) (s : PassiveStreamM) :
    VBucketM × PassiveStreamM × Nat :=
  let p := vb.highSeqno
  let numFlushed :=
    (vb.appliedSeqnos.filter (fun n => vb.persistedSeqno < n)).length
  let vb' := { vb with persistedSeqno := p }
  let s' :=
    if s.syncReplication && numFlushed != 0 then
      { s with readyQ := s.readyQ ++ [.seqnoAck (htonll p) (htonll p)] }
    else s
  (vb', s', numFlushed)

/-- Modelled from the spec: resolution step 1 of
`DcpProducer::streamRequest` — if the vBucket is currently receiving an
initial disk snapshot the request fails with ENGINE_TMPFAIL; otherwise
(for the aspects modelled here) it succeeds. -/
def streamRequestOnVB (vb : VBucketM) : EngineErr :=
  if vb.receivingInitialDiskSnapshot then .tmpfail else .success

/-- The consumer entry point `DcpConsumer::mutation`: builds the
mutation message and hands it to the vBucket's passive stream. -/
def consumerMutation (memoryPressure : Bool) (vb : VBucketM)
    (s : PassiveStreamM) (seqno keySize valueSize extMetaSize : Nat) :
    VBucketM × PassiveStreamM × EngineErr :=
  messageReceived memoryPressure vb s
    { seqno := seqno, durable := false, deletion := false
      keySize := keySize, valueSize := valueSize
      extMetaSize := extMetaSize }

/-- The consumer entry point `DcpConsumer::deletion`: builds the
deletion message and hands it to the vBucket's passive stream. -/
def consumerDeletion (memoryPressure : Bool) (vb : VBucketM)
    (s : PassiveStreamM) (seqno keySize extMetaSize : Nat) :
    VBucketM × PassiveStreamM × EngineErr :=
  messageReceived memoryPressure vb s
    { seqno := seqno, durable := false, deletion := true
      keySize := keySize, valueSize := 0
      extMetaSize := extMetaSize }

/-! ### Interleaved ingestion and draining (MB-31410 discipline) -/

/-- One step of the consumer's per-vBucket history: either the front-end
ingests a message (under the given replication-throttle state) or the
DcpConsumerTask drains a batch from the buffer. -/
inductive ConsumerEvent where
  | ingest (memoryPressure : Bool) (m : Msg)
  | drain (batchSize : Nat)
  deriving Repr

/-- Run a sequence of ingest/drain events against a vBucket and its
passive stream. -/
def runEvents (vb : VBucketM) (s : PassiveStreamM) :
    List ConsumerEvent → VBucketM × PassiveStreamM
  | [] => (vb, s)
  | .ingest p m :: rest =>
    runEvents (messageReceived p vb s m).1
      (messageReceived p vb s m).2.1 rest
  | .drain b :: rest =>
    runEvents (processBufferedMessages vb s b).1
      (processBufferedMessages vb s b).2 rest

/-- The seqnos already queued into the vBucket's checkpoint manager
followed by the seqnos still waiting in the stream's buffer: the
per-vBucket pending trace. -/
def pendingTrace (vb : VBucketM) (s : PassiveStreamM) : List Nat :=
  vb.appliedSeqnos ++ s.buffer.map Msg.seqno

/-- The seqnos of the messages ingested by a list of events, in arrival
order. -/
def ingestSeqnos : List ConsumerEvent → List Nat
  | [] => []
  | .ingest _ m :: rest => m.seqno :: ingestSeqnos rest
  | .drain _ :: rest => ingestSeqnos rest

/-- A fresh replica vBucket (nothing applied, nothing persisted). -/
def emptyVB : VBucketM :=
  { appliedSeqnos := [], persistedSeqno := 0, openCheckpointId := 1
    backfillPhase := false, receivingInitialDiskSnapshot := false }

/-- A fresh passive stream over a snapshot window. -/
def freshStream (snapStart snapEnd : Nat) : PassiveStreamM :=
  { buffer := [], readyQ := [], snapStart := snapStart, snapEnd := snapEnd
    syncReplication := false, responseMessageSize := 0 }

/-! ### Producer-side: closeStream and step

Modelled from the spec: `DcpProducer::closeStream` and
`DcpProducer::step` are not in the excerpt.  Spec section 4.2: if the
connection negotiated `send_stream_end_on_client_close_stream`, the
stream transitions to a terminal state that still emits a stream-end
message and then reaches dead; otherwise the stream is synchronously
removed so `findStreams(vbid)` returns empty.  Pinned by the tests
test_producer_stream_end_on_client_close_stream and
test_producer_no_stream_end_on_client_close_stream. -/

/-- ActiveStream states (spec section 4.2). -/
inductive StreamState where
  | pending
  | backfilling
  | inMemory
  | takeoverSend
  | takeoverWait
  | dead
  deriving DecidableEq, Repr

/-- DcpStreamEnd flags value END_STREAM_CLOSED. -/
def endStreamClosed : Nat := 1

/-- A producer-side active stream: its vBucket id, its state, and an
optionally queued stream-end message (the flags it will carry). -/
structure ActiveStreamM where
  vb : Nat
  state : StreamState
  pendingEndFlags : Option Nat
  deriving DecidableEq, Repr

/-- A producer connection: whether the client negotiated
`send_stream_end_on_client_close_stream`, and the stream map. -/
structure ProducerM where
  sendStreamEndOnClientCloseStream : Bool
  streams : List ActiveStreamM
  deriving DecidableEq, Repr

/-- A message emitted by `DcpProducer::step` (only the stream-end
message matters here: its vBucket and its flags). -/
inductive ProducerMsg where
  | dcpStreamEnd (vb flags : Nat)
  deriving DecidableEq, Repr

/-- Outcome of one `DcpProducer::step` call: a message handed to the
message producers, or ENGINE_EWOULDBLOCK when there is nothing to
send. -/
inductive StepOut where
  | message (m : ProducerMsg)
  | ewouldblock
  deriving DecidableEq, Repr

/-- Modelled from the spec: `DcpProducer::closeStream`.  When the client
negotiated `send_stream_end_on_client_close_stream` the stream stays in
the map with a stream-end message (flags END_STREAM_CLOSED) queued, to
reach the dead state only once that message is emitted; otherwise the
stream is removed from the map synchronously. -/
def ProducerM.closeStream (p : ProducerM) (vb : Nat) : ProducerM :=
  if p.sendStreamEndOnClientCloseStream then
    { p with streams := p.streams.map fun st =>
        if st.vb == vb then { st with pendingEndFlags := some endStreamClosed }
        else st }
  else
    { p with streams := p.streams.filter fun st => st.vb != vb }

/-- Modelled from the spec: `DcpProducer::findStreams(vbid)` — the
streams currently registered for the vBucket. -/
def ProducerM.findStreams (p : ProducerM) (vb : Nat) : List ActiveStreamM :=
  p.streams.filter fun st => st.vb == vb

/-- Modelled from the spec: `DcpProducer::step`.  The first stream with
a queued stream-end message emits it and transitions to dead; with no
ready message the step returns ENGINE_EWOULDBLOCK. -/
def ProducerM.step (p : ProducerM) : ProducerM × StepOut :=
  match p.streams.find? (fun st => st.pendingEndFlags.isSome) with
  | some st =>
    ({ p with streams := p.streams.map fun t =>
         if t.vb == st.vb then { t with pendingEndFlags := none,
                                        state := .dead }
         else t },
     .message (.dcpStreamEnd st.vb (st.pendingEndFlags.getD 0)))
  | none => (p, .ewouldblock)

/-! ### Concrete example values (used to instantiate the theorems) -/

/-- A replica vBucket that was previously active: open-checkpoint id 2,
nothing received yet. -/
def vbPrevActive : VBucketM :=
  { appliedSeqnos := [], persistedSeqno := 0, openCheckpointId := 2
    backfillPhase := false, receivingInitialDiskSnapshot := false }

/-- A plain (non-durable) mutation with seqno 1 and empty key/value. -/
def msgSeqno1 : Msg :=
  { seqno := 1, durable := false, deletion := false
    keySize := 0, valueSize := 0, extMetaSize := 0 }

/-- A durable (prepare) mutation with seqno 2 (test scenario S5). -/
def prepareSeqno2 : Msg :=
  { seqno := 2, durable := true, deletion := false
    keySize := 3, valueSize := 5, extMetaSize := 0 }

/-- A plain mutation with seqno 3 (the snapshot-end mutation of S5). -/
def msgSeqno3 : Msg :=
  { seqno := 3, durable := false, deletion := false
    keySize := 3, valueSize := 5, extMetaSize := 0 }

/-- A passive stream that already holds one buffered message. -/
def streamWithBuffered : PassiveStreamM :=
  { freshStream 1 100 with buffer := [msgSeqno1] }

/-- The MB-31410 scenario as an event trace: seqno 1 is buffered at
memory pressure, seqno 2 arrives while seqno 1 is still buffered, then
the DcpConsumerTask drains the buffer. -/
def mb31410Events : List ConsumerEvent :=
  [ .ingest true msgSeqno1
  , .ingest false prepareSeqno2
  , .drain 100 ]

/-- An open in-memory active stream on vBucket 0. -/
def streamVb0 : ActiveStreamM :=
  { vb := 0, state := .inMemory, pendingEndFlags := none }

/-- A registry holding one live producer connection (name 1, cookie 10). -/
def connMapOneProducer : ConnMapM :=
  { conns := [{ name := 1, cookie := 10, disconnectRequested := false }]
    dead := [] }

/-- A replica vBucket holding the unpersisted items 1, 2, 3 (the flush
batch of Durability_ReplicaDiskAckAtPersistedSeqno). -/
def vbThreeApplied : VBucketM :=
  { appliedSeqnos := [1, 2, 3], persistedSeqno := 0, openCheckpointId := 1
    backfillPhase := false, receivingInitialDiskSnapshot := false }

/-- A passive stream on a consumer that negotiated sync replication,
inside the partial snapshot [1, 4]. -/
def streamSyncRepl : PassiveStreamM :=
  { freshStream 1 4 with syncReplication := true }

end KvDcp

namespace KvDcp

/-! ## Theorems -/

/-- C9 counterexample: the claim explains the outcomes by the rule
"set_noop_interval must divide the connection-manager interval and is
rejected otherwise".  With the connection-manager interval at 2 seconds,
v = 1 divides 2, yet `control("set_noop_interval", 1)` returns
ENGINE_EINVAL (test_mb19955 line 781: "1" is not a multiple of "2"): the
spec-worded rule accepts exactly where the code rejects. -/
theorem set_noop_interval_divides_rule_counterexample :
    (1 ∣ 2) ∧ setNoopIntervalControl 2 1 = EngineErr.einval ∧
      setNoopIntervalControlSpecWorded 2 1 = EngineErr.success := by
  refine ⟨⟨2, rfl⟩, by decide, by decide⟩

/-- C9 (amended): with a connection-manager interval of 2 seconds,
`control("set_noop_interval", v)` succeeds for v = 2 and fails with
ENGINE_EINVAL for v = 1, because the requested noop interval must be a
multiple of the connection-manager interval and is rejected otherwise. -/
theorem set_noop_interval_multiple_of_conn_manager_interval :
    setNoopIntervalControl 2 2 = EngineErr.success ∧
    setNoopIntervalControl 2 1 = EngineErr.einval ∧
    ∀ v : Nat, setNoopIntervalControl 2 v = EngineErr.success ↔ v % 2 = 0 := by
  refine ⟨by decide, by decide, fun v => ?_⟩
  unfold setNoopIntervalControl
  by_cases h : v % 2 = 0 <;> simp [h]

/-- Witness for the amended C9 rule at the concrete interval v = 4 (a
multiple of 2, hence accepted). -/
theorem set_noop_interval_multiple_witness :
    setNoopIntervalControl 2 4 = EngineErr.success ↔ 4 % 2 = 0 :=
  set_noop_interval_multiple_of_conn_manager_interval.2.2 4

/-- C8: the response recorded by the consumer for a deletion occupies
exactly `deletionBaseMsgBytes + key_size + ext_meta_size` bytes and for
a mutation exactly `mutationBaseMsgBytes + key_size + value_size +
ext_meta_size` bytes, both as a property of every message and through
the `DcpConsumer::deletion` / `DcpConsumer::mutation` ingestion paths
(test_mb24424_deleteResponse, test_mb24424_mutationResponse). -/
theorem mb24424_response_message_sizes :
    (∀ m : Msg, m.deletion = true →
       m.messageSize = deletionBaseMsgBytes + m.keySize + m.extMetaSize) ∧
    (∀ m : Msg, m.deletion = false →
       m.messageSize
         = mutationBaseMsgBytes + m.keySize + m.valueSize + m.extMetaSize) ∧
    (∀ (vb : VBucketM) (s : PassiveStreamM) (seqno k e : Nat),
       s.buffer = [] →
       (consumerDeletion false vb s seqno k e).2.1.responseMessageSize
         = deletionBaseMsgBytes + k + e) ∧
    (∀ (vb : VBucketM) (s : PassiveStreamM) (seqno k v e : Nat),
       s.buffer = [] →
       (consumerMutation false vb s seqno k v e).2.1.responseMessageSize
         = mutationBaseMsgBytes + k + v + e) := by
  refine ⟨fun m h => ?_, fun m h => ?_,
          fun vb s seqno k e h => ?_, fun vb s seqno k v e h => ?_⟩
  · simp [Msg.messageSize, h]
  · simp [Msg.messageSize, h]
  · simp [consumerDeletion, messageReceived, h, applyMessage, Msg.messageSize]
  · simp [consumerMutation, messageReceived, h, applyMessage, Msg.messageSize]

/-- Witness for C8 with the literal values of scenario S4: key "key"
(3 bytes), one byte of extended metadata, a 14-byte JSON value for the
mutation case. -/
theorem mb24424_response_message_sizes_witness :
    (consumerDeletion false emptyVB (freshStream 1 10) 1 3 1).2.1.responseMessageSize
      = deletionBaseMsgBytes + 3 + 1 ∧
    (consumerMutation false emptyVB (freshStream 1 10) 1 3 14 1).2.1.responseMessageSize
      = mutationBaseMsgBytes + 3 + 14 + 1 :=
  ⟨mb24424_response_message_sizes.2.2.1 emptyVB (freshStream 1 10) 1 3 1 rfl,
   mb24424_response_message_sizes.2.2.2 emptyVB (freshStream 1 10) 1 3 14 1 rfl⟩

/-- C7: a snapshot marker with the disk flag marks the receiving
vBucket as receiving an initial disk snapshot; while that flag is set
every producer streamRequest on the vBucket fails with ENGINE_TMPFAIL;
receiving the snapshot-end mutation clears the flag; and with the flag
clear streamRequest is no longer rejected for that reason
(test_not_using_backfill_queue). -/
theorem receiving_initial_disk_snapshot_guard :
    (∀ (cfg : Bool) (vb : VBucketM) (s : PassiveStreamM) (st en : Nat)
       (fl : MarkerFlags), vb.highSeqno = 0 → fl.disk = true →
       (processMarker cfg vb s st en fl).1.receivingInitialDiskSnapshot
         = true) ∧
    (∀ vb : VBucketM, vb.receivingInitialDiskSnapshot = true →
       streamRequestOnVB vb = EngineErr.tmpfail) ∧
    (∀ (vb : VBucketM) (s : PassiveStreamM) (m : Msg),
       s.buffer = [] → m.seqno = s.snapEnd →
       (messageReceived false vb s m).1.receivingInitialDiskSnapshot
         = false) ∧
    (∀ vb : VBucketM, vb.receivingInitialDiskSnapshot = false →
       streamRequestOnVB vb = EngineErr.success) := by
  refine ⟨fun cfg vb s st en fl h1 h2 => ?_, fun vb h => ?_,
          fun vb s m hb hs => ?_, fun vb h => ?_⟩
  · cases cfg <;> simp [processMarker, h1, h2]
  · simp [streamRequestOnVB, h]
  · simp [messageReceived, hb, applyMessage, hs]
  · simp [streamRequestOnVB, h]

/-- Witness for C7: the concrete replica of test_not_using_backfill_queue
(snapshot [0,1] with the disk flag, then the snapshot-end mutation at
seqno 1). -/
theorem receiving_initial_disk_snapshot_guard_witness :
    ((processMarker false emptyVB (freshStream 0 1) 0 1
        ⟨false, true⟩).1.receivingInitialDiskSnapshot = true) ∧
    (streamRequestOnVB { emptyVB with receivingInitialDiskSnapshot := true }
       = EngineErr.tmpfail) ∧
    ((messageReceived false
        { emptyVB with receivingInitialDiskSnapshot := true }
        (freshStream 0 1) msgSeqno1).1.receivingInitialDiskSnapshot
       = false) ∧
    (streamRequestOnVB emptyVB = EngineErr.success) :=
  ⟨receiving_initial_disk_snapshot_guard.1 false emptyVB (freshStream 0 1)
     0 1 ⟨false, true⟩ rfl rfl,
   receiving_initial_disk_snapshot_guard.2.1 _ rfl,
   receiving_initial_disk_snapshot_guard.2.2.1 _ (freshStream 0 1)
     msgSeqno1 rfl rfl,
   receiving_initial_disk_snapshot_guard.2.2.2 _ rfl⟩

/-- C6: on a replica vBucket whose open-checkpoint id is 2 and that has
received no data, a disk-flag marker with `disk_backfill_queue = true`
sets the open-checkpoint id to 0 and a subsequent memory-flag marker
creates a new checkpoint with id 1; with `disk_backfill_queue = false`
the id remains 2 across both markers and no new checkpoint is created
(test_mb21784, test_not_using_backfill_queue). -/
theorem mb21784_open_checkpoint_ids (vb : VBucketM) (s : PassiveStreamM)
    (st en st2 en2 : Nat)
    (hid : vb.openCheckpointId = 2) (hhigh : vb.highSeqno = 0)
    (hbf : vb.backfillPhase = false) :
    ((processMarker true vb s st en ⟨false, true⟩).1.openCheckpointId = 0) ∧
    ((processMarker true (processMarker true vb s st en ⟨false, true⟩).1
        (processMarker true vb s st en ⟨false, true⟩).2 st2 en2
        ⟨true, false⟩).1.openCheckpointId = 1) ∧
    ((processMarker false vb s st en ⟨false, true⟩).1.openCheckpointId = 2) ∧
    ((processMarker false (processMarker false vb s st en ⟨false, true⟩).1
        (processMarker false vb s st en ⟨false, true⟩).2 st2 en2
        ⟨true, false⟩).1.openCheckpointId = 2) := by
  refine ⟨?_, ?_, ?_, ?_⟩ <;>
    simp [processMarker, hid, hhigh, hbf]

/-- Witness for C6: the previously-active replica with open-checkpoint
id 2 from the tests. -/
theorem mb21784_open_checkpoint_ids_witness :
    ((processMarker true vbPrevActive (freshStream 0 0) 0 0
        ⟨false, true⟩).1.openCheckpointId = 0) ∧
    ((processMarker true
        (processMarker true vbPrevActive (freshStream 0 0) 0 0
          ⟨false, true⟩).1
        (processMarker true vbPrevActive (freshStream 0 0) 0 0
          ⟨false, true⟩).2 0 0 ⟨true, false⟩).1.openCheckpointId = 1) ∧
    ((processMarker false vbPrevActive (freshStream 0 0) 0 0
        ⟨false, true⟩).1.openCheckpointId = 2) ∧
    ((processMarker false
        (processMarker false vbPrevActive (freshStream 0 0) 0 0
          ⟨false, true⟩).1
        (processMarker false vbPrevActive (freshStream 0 0) 0 0
          ⟨false, true⟩).2 0 0 ⟨true, false⟩).1.openCheckpointId = 2) :=
  mb21784_open_checkpoint_ids vbPrevActive (freshStream 0 0) 0 0 0 0
    rfl rfl rfl

/-- C2: when the passive stream (empty ready queue, nothing buffered)
receives a durable-write (prepare) mutation with seqno P, it is applied
and the ready queue immediately contains exactly one
SeqnoAcknowledgement with inMemorySeqno = htonll P (network byte order)
and onDiskSeqno = 0; a subsequent non-durable mutation in the same
snapshot (the snapshot-end mutation included) adds no further ack
(Durability_MemorySeqnoAckAtSyncWriteReceived). -/
theorem durability_memory_ack_at_prepare (vb : VBucketM)
    (s : PassiveStreamM) (m : Msg) (hq : s.readyQ = [])
    (hb : s.buffer = []) (hd : m.durable = true) :
    ((messageReceived false vb s m).2.2 = EngineErr.success) ∧
    ((messageReceived false vb s m).2.1.readyQ
       = [.seqnoAck (htonll m.seqno) 0]) ∧
    (∀ m2 : Msg, m2.durable = false →
       (messageReceived false (messageReceived false vb s m).1
           (messageReceived false vb s m).2.1 m2).2.1.readyQ
         = [.seqnoAck (htonll m.seqno) 0]) := by
  refine ⟨?_, ?_, fun m2 h2 => ?_⟩ <;>
    simp [messageReceived, applyMessage, hq, hb, hd, *]

/-- Witness for C2: scenario S5 — snapshot [1, 3], prepare at seqno 2,
snapshot-end mutation at seqno 3. -/
theorem durability_memory_ack_at_prepare_witness :
    ((messageReceived false emptyVB (freshStream 1 3)
        prepareSeqno2).2.2 = EngineErr.success) ∧
    ((messageReceived false emptyVB (freshStream 1 3)
        prepareSeqno2).2.1.readyQ
       = [.seqnoAck (htonll prepareSeqno2.seqno) 0]) ∧
    ((messageReceived false
        (messageReceived false emptyVB (freshStream 1 3) prepareSeqno2).1
        (messageReceived false emptyVB (freshStream 1 3) prepareSeqno2).2.1
        msgSeqno3).2.1.readyQ
       = [.seqnoAck (htonll prepareSeqno2.seqno) 0]) :=
  have h := durability_memory_ack_at_prepare emptyVB (freshStream 1 3)
    prepareSeqno2 rfl rfl rfl
  ⟨h.1, h.2.1, h.2.2 msgSeqno3 rfl⟩

/-- C3: on a consumer that negotiated sync replication, persisting a
non-empty flush batch pushes a SeqnoAcknowledgement onto the passive
stream's ready queue carrying the highest persisted seqno P in both
fields (network byte order).  No hypothesis relates P to the snapshot
end, so the ack is produced even when only a partial snapshot has been
received and persisted (Durability_ReplicaDiskAckAtPersistedSeqno). -/
theorem replica_disk_ack_at_persisted_seqno (vb : VBucketM)
    (s : PassiveStreamM) (hsync : s.syncReplication = true)
    (hbatch :
      (vb.appliedSeqnos.filter fun n => vb.persistedSeqno < n) ≠ []) :
    ((flushVBucket vb s).2.1.readyQ
       = s.readyQ
         ++ [.seqnoAck (htonll vb.highSeqno) (htonll vb.highSeqno)]) ∧
    ((flushVBucket vb s).1.persistedSeqno = vb.highSeqno) := by
  have hlen :
      ((vb.appliedSeqnos.filter fun n => vb.persistedSeqno < n)).length
        ≠ 0 := by
    simpa [List.length_eq_zero] using hbatch
  constructor <;> simp [flushVBucket, hsync, hlen]

/-- Witness for C3: the flush batch {1, 2, 3} of
Durability_ReplicaDiskAckAtPersistedSeqno, persisted inside the partial
snapshot [1, 4]: the ack carries seqno 3 twice. -/
theorem replica_disk_ack_at_persisted_seqno_witness :
    ((flushVBucket vbThreeApplied streamSyncRepl).2.1.readyQ
       = streamSyncRepl.readyQ
         ++ [.seqnoAck (htonll vbThreeApplied.highSeqno)
               (htonll vbThreeApplied.highSeqno)]) ∧
    ((flushVBucket vbThreeApplied streamSyncRepl).1.persistedSeqno
       = vbThreeApplied.highSeqno) :=
  replica_disk_ack_at_persisted_seqno vbThreeApplied streamSyncRepl rfl
    (by decide)

/-- C5: after `closeStream` on an open stream, a producer that
negotiated `send_stream_end_on_client_close_stream` keeps the stream
(not yet dead) with a stream-end queued, whose next `step()` emits
DcpStreamEnd with flags Closed (1) and only then moves the stream to
dead; a producer without the negotiation removes the stream
synchronously, so `step()` returns ENGINE_EWOULDBLOCK and
`findStreams(vbid)` is empty
(test_producer_stream_end_on_client_close_stream,
test_producer_no_stream_end_on_client_close_stream). -/
theorem producer_stream_end_iff_negotiated (st : ActiveStreamM)
    (hstate : st.state = StreamState.inMemory) :
    (((ProducerM.mk true [st]).closeStream st.vb).streams
       = [{ st with pendingEndFlags := some endStreamClosed }]) ∧
    (∀ t ∈ ((ProducerM.mk true [st]).closeStream st.vb).streams,
       t.state ≠ StreamState.dead) ∧
    (((ProducerM.mk true [st]).closeStream st.vb).step.2
       = StepOut.message (.dcpStreamEnd st.vb endStreamClosed)) ∧
    (((ProducerM.mk true [st]).closeStream st.vb).step.1.streams
       = [{ st with pendingEndFlags := none,
                    state := StreamState.dead }]) ∧
    (((ProducerM.mk false [st]).closeStream st.vb).step.2
       = StepOut.ewouldblock) ∧
    (((ProducerM.mk false [st]).closeStream st.vb).findStreams st.vb
       = []) := by
  refine ⟨?_, ?_, ?_, ?_, ?_, ?_⟩
  · simp [ProducerM.closeStream]
  · intro t ht
    simp [ProducerM.closeStream] at ht
    simp [ht, hstate]
  · simp [ProducerM.closeStream, ProducerM.step]
  · simp [ProducerM.closeStream, ProducerM.step]
  · simp [ProducerM.closeStream, ProducerM.step]
  · simp [ProducerM.closeStream, ProducerM.findStreams]

/-- Witness for C5: the concrete in-memory stream on vBucket 0. -/
theorem producer_stream_end_iff_negotiated_witness :
    (((ProducerM.mk true [streamVb0]).closeStream streamVb0.vb).step.2
       = StepOut.message (.dcpStreamEnd streamVb0.vb endStreamClosed)) ∧
    (((ProducerM.mk false [streamVb0]).closeStream
        streamVb0.vb).findStreams streamVb0.vb = []) :=
  have h := producer_stream_end_iff_negotiated streamVb0 rfl
  ⟨h.2.2.1, h.2.2.2.2.2⟩

/-- C4: registry collision handling is asymmetric between name and
cookie.  Creating a connection whose name collides with an existing one
(on a fresh cookie) marks the existing connection disconnect-requested
and returns the new connection, which `findByName` then resolves to;
creating a connection whose cookie collides with an existing one (any
name) marks the existing connection disconnect-requested and returns
null (test_mb17042_duplicate_name_producer_connections,
test_mb17042_duplicate_cookie_producer_connections). -/
theorem mb17042_duplicate_name_cookie_asymmetry (m : ConnMapM) (c : Conn)
    (k n : Nat) :
    (c ∈ m.conns → c.name = n → (∀ c2 ∈ m.conns, c2.cookie ≠ k) →
      ((m.newProducer k n).2 = some ⟨n, k, false⟩) ∧
      ({ c with disconnectRequested := true } ∈ (m.newProducer k n).1.conns) ∧
      ((m.newProducer k n).1.findByName n = some ⟨n, k, false⟩)) ∧
    (c ∈ m.conns → c.cookie = k →
      ((m.newProducer k n).2 = none) ∧
      ({ c with disconnectRequested := true }
         ∈ (m.newProducer k n).1.conns)) := by
  constructor
  · intro hc hcn hfree
    have hany : (m.conns.any fun c2 => c2.cookie == k) = false := by
      simp only [List.any_eq_false]
      intro c2 hc2
      simpa using hfree c2 hc2
    have hmark : { c with disconnectRequested := true }
        ∈ ConnMapM.markByName n m.conns := by
      have := List.mem_map_of_mem
        (fun c2 => if c2.name == n
          then { c2 with disconnectRequested := true } else c2) hc
      simpa [ConnMapM.markByName, hcn] using this
    have hnone : (ConnMapM.markByName n m.conns).find?
        (fun c2 => c2.name == n && !c2.disconnectRequested) = none := by
      rw [List.find?_eq_none]
      intro x hx
      rcases List.mem_map.mp hx with ⟨c2, _, rfl⟩
      by_cases h2 : c2.name = n <;> simp [h2]
    refine ⟨?_, ?_, ?_⟩
    · simp [ConnMapM.newProducer, hany]
    · simp only [ConnMapM.newProducer, hany, Bool.false_eq_true, if_false]
      exact List.mem_append_left _ hmark
    · simp [ConnMapM.newProducer, ConnMapM.findByName, hany, hnone]
  · intro hc hck
    have hany : (m.conns.any fun c2 => c2.cookie == k) = true := by
      simp only [List.any_eq_true]
      exact ⟨c, hc, by simp [hck]⟩
    have hmark : { c with disconnectRequested := true }
        ∈ ConnMapM.markByCookie k m.conns := by
      have := List.mem_map_of_mem
        (fun c2 => if c2.cookie == k
          then { c2 with disconnectRequested := true } else c2) hc
      simpa [ConnMapM.markByCookie, hck] using this
    exact ⟨by simp [ConnMapM.newProducer, hany],
           by simpa [ConnMapM.newProducer, hany] using hmark⟩

/-- Witness for C4: a registry with one producer (name 1, cookie 10):
a new producer with the same name on cookie 11 is returned and
supersedes it; a new producer on cookie 10 is rejected. -/
theorem mb17042_duplicate_name_cookie_asymmetry_witness :
    (((connMapOneProducer.newProducer 11 1).2 = some ⟨1, 11, false⟩) ∧
     ({ name := 1, cookie := 10, disconnectRequested := true }
        ∈ (connMapOneProducer.newProducer 11 1).1.conns) ∧
     ((connMapOneProducer.newProducer 11 1).1.findByName 1
        = some ⟨1, 11, false⟩)) ∧
    (((connMapOneProducer.newProducer 10 2).2 = none) ∧
     ({ name := 1, cookie := 10, disconnectRequested := true }
        ∈ (connMapOneProducer.newProducer 10 2).1.conns)) :=
  have h := mb17042_duplicate_name_cookie_asymmetry connMapOneProducer
    ⟨1, 10, false⟩ 11 1
  have h2 := mb17042_duplicate_name_cookie_asymmetry connMapOneProducer
    ⟨1, 10, false⟩ 10 2
  ⟨h.1 (by decide) rfl (by decide), h2.2 (by decide) rfl⟩

/-- C10: after `disconnect(cookie)` but before `manageConnections`
reaps it, the connection is marked disconnect-requested, it is held on
the registry's dead list (and still in the connection list), and
`findByName` for its name returns null — a disconnect-requested
connection is never returned by name lookup
(test_mb23637_findByNameWithConnectionDoDisconnect). -/
theorem mb23637_findByName_after_disconnect (m : ConnMapM) (c : Conn)
    (k n : Nat) (hc : c ∈ m.conns) (hck : c.cookie = k) (_hcn : c.name = n)
    (huniq : ∀ c2 ∈ m.conns, c2.name = n → c2.cookie = k) :
    ((m.disconnect k).findByName n = none) ∧
    ({ c with disconnectRequested := true } ∈ (m.disconnect k).dead) ∧
    ({ c with disconnectRequested := true } ∈ (m.disconnect k).conns) ∧
    ((m.disconnect k).getNumberOfDeadConnections
       = m.getNumberOfDeadConnections
         + (m.conns.filter fun c2 => c2.cookie == k).length) := by
  refine ⟨?_, ?_, ?_, ?_⟩
  · simp only [ConnMapM.disconnect, ConnMapM.findByName]
    rw [List.find?_eq_none]
    intro x hx
    rcases List.mem_map.mp hx with ⟨c2, hc2, rfl⟩
    by_cases h2k : c2.cookie = k
    · simp [h2k]
    · have h2n : ¬c2.name = n := fun h => h2k (huniq c2 hc2 h)
      simp [h2k, h2n]
  · simp only [ConnMapM.disconnect]
    refine List.mem_append_right _ ?_
    refine List.mem_map_of_mem _ ?_
    rw [List.mem_filter]
    exact ⟨hc, by simp [hck]⟩
  · simp only [ConnMapM.disconnect, ConnMapM.markByCookie]
    have := List.mem_map_of_mem
      (fun c2 => if c2.cookie == k
        then { c2 with disconnectRequested := true } else c2) hc
    simpa [hck] using this
  · simp [ConnMapM.disconnect, ConnMapM.getNumberOfDeadConnections]

/-- Witness for C10: disconnecting the producer (name 1, cookie 10)
leaves it unfindable by name but held on the dead list. -/
theorem mb23637_findByName_after_disconnect_witness :
    ((connMapOneProducer.disconnect 10).findByName 1 = none) ∧
    ({ name := 1, cookie := 10, disconnectRequested := true }
       ∈ (connMapOneProducer.disconnect 10).dead) ∧
    ({ name := 1, cookie := 10, disconnectRequested := true }
       ∈ (connMapOneProducer.disconnect 10).conns) ∧
    ((connMapOneProducer.disconnect 10).getNumberOfDeadConnections
       = connMapOneProducer.getNumberOfDeadConnections
         + (connMapOneProducer.conns.filter
             fun c2 => c2.cookie == 10).length) :=
  mb23637_findByName_after_disconnect connMapOneProducer ⟨1, 10, false⟩
    10 1 (by decide) rfl rfl (by decide)

/-- Ingesting one message appends its seqno to the pending trace,
whether it is applied directly (possible only with an empty buffer) or
deferred to the back of the buffer. -/
theorem messageReceived_pendingTrace (p : Bool) (vb : VBucketM)
    (s : PassiveStreamM) (m : Msg) :
    pendingTrace (messageReceived p vb s m).1
        (messageReceived p vb s m).2.1
      = pendingTrace vb s ++ [m.seqno] := by
  by_cases hb : s.buffer = []
  · cases p <;> simp [messageReceived, hb, applyMessage, pendingTrace]
  · have hie : s.buffer.isEmpty = false := by
      cases hbuf : s.buffer <;> simp_all
    cases p <;> simp [messageReceived, hie, pendingTrace, applyMessage]

/-- Draining moves messages from the front of the buffer to the end of
the applied list, leaving the pending trace unchanged. -/
theorem processBufferedMessages_pendingTrace (b : Nat) :
    ∀ (vb : VBucketM) (s : PassiveStreamM),
      pendingTrace (processBufferedMessages vb s b).1
          (processBufferedMessages vb s b).2
        = pendingTrace vb s := by
  induction b with
  | zero => intro vb s; simp [processBufferedMessages]
  | succ n ih =>
    intro vb s
    cases hbuf : s.buffer with
    | nil => simp [processBufferedMessages, hbuf]
    | cons m rest =>
      simp only [processBufferedMessages, hbuf]
      rw [ih]
      simp [pendingTrace, applyMessage, hbuf]

/-- Draining applies exactly the first `batchSize` buffered messages, in
the order they were buffered, and removes them from the buffer. -/
theorem processBufferedMessages_fifo (b : Nat) :
    ∀ (vb : VBucketM) (s : PassiveStreamM),
      (processBufferedMessages vb s b).1.appliedSeqnos
        = vb.appliedSeqnos ++ (s.buffer.take b).map Msg.seqno ∧
      (processBufferedMessages vb s b).2.buffer = s.buffer.drop b := by
  induction b with
  | zero => intro vb s; simp [processBufferedMessages]
  | succ n ih =>
    intro vb s
    cases hbuf : s.buffer with
    | nil => simp [processBufferedMessages, hbuf]
    | cons m rest =>
      simp only [processBufferedMessages, hbuf]
      rcases ih (applyMessage vb { s with buffer := rest } m).1
        (applyMessage vb { s with buffer := rest } m).2 with ⟨h1, h2⟩
      rw [h1, h2]
      simp [applyMessage]

/-- Running a trace of ingest and drain events appends exactly the
ingested seqnos, in arrival order, to the pending trace. -/
theorem runEvents_pendingTrace (events : List ConsumerEvent) :
    ∀ (vb : VBucketM) (s : PassiveStreamM),
      pendingTrace (runEvents vb s events).1 (runEvents vb s events).2
        = pendingTrace vb s ++ ingestSeqnos events := by
  induction events with
  | nil => intro vb s; simp [runEvents, ingestSeqnos]
  | cons e rest ih =>
    intro vb s
    cases e with
    | ingest p m =>
      simp only [runEvents, ingestSeqnos]
      rw [ih, messageReceived_pendingTrace]
      simp
    | drain b =>
      simp only [runEvents, ingestSeqnos]
      rw [ih, processBufferedMessages_pendingTrace]

/-- C1 (MB-31410 discipline): while any message for the vBucket sits in
the consumer buffer, every new incoming message is answered with
ENGINE_TMPFAIL and appended to the back of the buffer — the vBucket (and
so its checkpoint manager) is untouched; draining applies the buffered
messages in the order they were buffered; and along any trace of
ingestions with strictly increasing seqnos, arbitrarily interleaved with
drains, the sequence of seqnos applied to the vBucket's checkpoint
manager is strictly increasing. -/
theorem mb31410_buffered_processor_discipline :
    (∀ (p : Bool) (vb : VBucketM) (s : PassiveStreamM) (m : Msg),
       s.buffer ≠ [] →
       messageReceived p vb s m
         = (vb, { s with buffer := s.buffer ++ [m] },
            EngineErr.tmpfail)) ∧
    (∀ (vb : VBucketM) (s : PassiveStreamM) (b : Nat),
       (processBufferedMessages vb s b).1.appliedSeqnos
         = vb.appliedSeqnos ++ (s.buffer.take b).map Msg.seqno ∧
       (processBufferedMessages vb s b).2.buffer = s.buffer.drop b) ∧
    (∀ events : List ConsumerEvent,
       List.Chain' (· < ·) (ingestSeqnos events) →
       List.Chain' (· < ·)
         ((runEvents emptyVB (freshStream 1 100)
             events).1.appliedSeqnos)) := by
  refine ⟨fun p vb s m hb => ?_, fun vb s b => processBufferedMessages_fifo b vb s,
          fun events hchain => ?_⟩
  · have hie : s.buffer.isEmpty = false := by
      cases hbuf : s.buffer <;> simp_all
    simp [messageReceived, hie]
  · have h := runEvents_pendingTrace events emptyVB (freshStream 1 100)
    rw [show pendingTrace emptyVB (freshStream 1 100) = [] from rfl,
        List.nil_append] at h
    rw [← h] at hchain
    exact List.Chain'.left_of_append
      (by simpa [pendingTrace] using hchain)

/-- Witness for C1: ingesting seqno 2 while seqno 1 is buffered returns
ENGINE_TMPFAIL and appends it; the MB-31410 event trace (buffer 1 under
memory pressure, buffer 2 behind it, then drain) leaves the checkpoint
manager with strictly increasing seqnos. -/
theorem mb31410_buffered_processor_discipline_witness :
    (messageReceived false emptyVB streamWithBuffered prepareSeqno2
       = (emptyVB,
          { streamWithBuffered with
              buffer := streamWithBuffered.buffer ++ [prepareSeqno2] },
          EngineErr.tmpfail)) ∧
    List.Chain' (· < ·)
      ((runEvents emptyVB (freshStream 1 100)
          mb31410Events).1.appliedSeqnos) :=
  ⟨mb31410_buffered_processor_discipline.1 false emptyVB
     streamWithBuffered prepareSeqno2 (by decide),
   mb31410_buffered_processor_discipline.2.2 mb31410Events
     (by rw [show ingestSeqnos mb31410Events = [1, 2] from rfl]
         exact List.chain'_pair.mpr Nat.one_lt_two)⟩

end KvDcp
